import Mathlib

/-!
# Shallow embedding of pyGSTi `ConfidenceRegion`

This file embeds `packages/pygsti/objects/confidenceregion.py` (pyGSTi 0.9)
in Lean 4 and proves the specified properties of it.

Modelling conventions:

* numpy floating-point numbers are modelled as exact rationals (`ℚ`);
  numpy `nParams x nParams` arrays are `Matrix (Fin n) (Fin n) ℚ`.
* External collaborators that are not part of this repository excerpt are
  passed in as explicit inputs: the statistics provider (`scipy.stats.chi2.ppf`,
  `scipy.stats.norm.ppf`), the linear-algebra provider (`numpy.linalg.eigh`,
  `numpy.linalg.matrix_rank`, `numpy.sqrt`) and the `GateSet` collaborator
  (`get_nongauge_projector`, `get_vector_offsets`).  Theorems that need a
  property of a collaborator (for instance that `eigh` returns an orthogonal
  matrix) take that property as an explicit hypothesis.
* Python exceptions become an `Except` result; the `warnings.warn` call
  becomes an explicit list of warning strings in the result.
-/

/-- The two kinds of Python exceptions raised by `ConfidenceRegion.__init__`:
`raise ValueError(msg)` and a failed `assert(...)` statement. -/
inductive PyError where
  | valueError (msg : String)
  | assertionError (msg : String)
deriving DecidableEq, Repr

/-- The Python `gates` parameterization flag of `ConfidenceRegion.__init__`:
either a boolean (`True` / `False`) or a list/tuple of gate labels. -/
inductive GatesParam where
  | flag (b : Bool)
  | labels (ls : List String)
deriving DecidableEq, Repr

open Matrix

/-- The condition `gates == True or (type(gates) in (list,tuple) and
gateLabel in gates)` from `get_gate_fn_confidence_interval`. -/
def gateIsActive : GatesParam → String → Bool
  | .flag b, _ => b
  | .labels ls, lbl => ls.contains lbl

/-- Square rational matrix: the embedding of an `nParams x nParams` numpy
array. -/
abbrev Mat (n : ℕ) := Matrix (Fin n) (Fin n) ℚ

/-- External numerical collaborators used by `ConfidenceRegion.__init__`
(scipy and numpy; none of their code is part of this repository). -/
structure NumLib (n : ℕ) where
  /-- Quantile function `scipy.stats.chi2.ppf q df` of the chi-squared distribution. -/
  chi2ppf : ℚ → ℕ → ℚ
  /-- Quantile function `scipy.stats.norm.ppf q` of the standard normal distribution. -/
  normppf : ℚ → ℚ
  /-- Square root `numpy.sqrt`. -/
  sqrt : ℚ → ℚ
  /-- Eigendecomposition `numpy.linalg.eigh M`: the pair `(evals, U)` for a symmetric matrix. -/
  eigh : Mat n → (Fin n → ℚ) × Mat n
  /-- Numerical rank `numpy.linalg.matrix_rank M P_RANK_TOL`. -/
  matrixRank : Mat n → ℕ

/-- The data obtained from the external `GateSet` collaborator at the start of
`ConfidenceRegion.__init__`. -/
structure GateSetInputs (n : ℕ) where
  /-- Projector `gateset.get_nongauge_projector(gates,G0,SPAM,SP0)`. -/
  proj_non_gauge : Mat n
  /-- Offsets `gateset.get_vector_offsets(gates,G0,SPAM,SP0)`: maps an object label to
  its half-open index range `(start, end)` in the flattened parameter vector. -/
  offsets : String → ℕ × ℕ

/-- Predicate `numpy.isclose a b` with the default tolerances
`rtol = 1e-5`, `atol = 1e-8`: `|a - b| <= atol + rtol * |b|`. -/
def isclose (a b : ℚ) : Prop := |a - b| ≤ 1e-8 + 1e-5 * |b|

instance (a b : ℚ) : Decidable (isclose a b) := by
  unfold isclose
  infer_instance

/-- The projection step of `ConfidenceRegion.__init__` (lines 66-76):
dispatch on the `hessianProjection` string.  `optProjection` stands for the
result of `_optProjectionForGateCIs` (whose inner numerical minimizer is an
external collaborator). -/
def projectHessian (n : ℕ) (proj_non_gauge hessian : Mat n)
    (hessianProjection : String) (optProjection : Mat n) :
    Except PyError (Mat n) :=
  if hessianProjection = "none" then .ok hessian
  else if hessianProjection = "std" then
    .ok (proj_non_gauge * hessian * proj_non_gauge)
  else if hessianProjection = "optimal gate CIs" then .ok optProjection
  else .error (.valueError
    ("Invalid value of hessianProjection argument: " ++ hessianProjection))

/-- Ordering indices `orderInds` (line 114): the ordering index of each eigenvalue, i.e. the
index list sorted by ascending absolute value of the eigenvalue.  Python
`sorted` and `List.mergeSort` are both stable sorts. -/
def orderInds (n : ℕ) (evals : Fin n → ℚ) : List (Fin n) :=
  (List.finRange n).mergeSort fun i j => decide (|evals i| ≤ |evals j|)

/-- Inverted eigenvalues `invEvals` (lines 115-117): start from all zeros and set
`invEvals[i] = 1/evals[i]` exactly for the ordering indices from position
`nGaugeParams` on (the non-gauge eigenvalues); the `nGaugeParams`
smallest-magnitude eigenvalues keep inverse `0`. -/
def invEvals (n : ℕ) (nGaugeParams : ℕ) (evals : Fin n → ℚ) : Fin n → ℚ :=
  fun i => if i ∈ (orderInds n evals).drop nGaugeParams then 1 / evals i else 0

/-- The warning issued for `confidenceLevel < 1.0` (lines 84-87). -/
def smallLevelWarning (confidenceLevel : ℚ) : String :=
  "You have specified a " ++ toString confidenceLevel ++
    "% confidence interval, which is usually small.  Be sure to specify this" ++
    "number as a percentage in (0,100) and not a fraction in (0,1)."

/-- The state stored on `self` by a completed `ConfidenceRegion.__init__`. -/
structure ConfidenceRegion (n : ℕ) where
  nNonGaugeParams : ℕ
  nGaugeParams : ℕ
  regionQuadcForm : Mat n
  intervalScaling : ℚ
  invRegionQuadcForm : Mat n
  U : Mat n
  Udag : Mat n
  gateset_offsets : String → ℕ × ℕ
  profLCI : Fin n → ℚ
  gates : GatesParam
  G0 : Bool
  SPAM : Bool
  SP0 : Bool
  level : ℚ

/-- The straight-line computation of `ConfidenceRegion.__init__` after the
input validation succeeded (lines 62-64, 89-135, minus the two asserts which
live in `mkConfidenceRegion`).  `projected_hessian` is the output of the
projection step.  Since the matrices are real, `Udag` (the conjugate
transpose, line 111) is the transpose. -/
def buildRegion (n : ℕ) (L : NumLib n) (GS : GateSetInputs n)
    (projected_hessian : Mat n) (confidenceLevel : ℚ)
    (gates : GatesParam) (G0 SPAM SP0 : Bool) : ConfidenceRegion n :=
  let nNonGaugeParams := L.matrixRank GS.proj_non_gauge
  let nGaugeParams := n - nNonGaugeParams
  let C1 := L.chi2ppf (confidenceLevel / 100) 1
  let Ck := L.chi2ppf (confidenceLevel / 100) nNonGaugeParams
  let regionQuadcForm : Mat n := Matrix.of fun i j => projected_hessian i j / C1
  let intervalScaling := L.sqrt (Ck / C1)
  let EU := L.eigh regionQuadcForm
  let U := EU.2
  let Udag := Uᵀ
  let invDiagQuadcForm := Matrix.diagonal (invEvals n nGaugeParams EU.1)
  let invRegionQuadcForm := U * invDiagQuadcForm * Udag
  { nNonGaugeParams := nNonGaugeParams
    nGaugeParams := nGaugeParams
    regionQuadcForm := regionQuadcForm
    intervalScaling := intervalScaling
    invRegionQuadcForm := invRegionQuadcForm
    U := U
    Udag := Udag
    gateset_offsets := GS.offsets
    profLCI := fun k => L.sqrt |invRegionQuadcForm k k|
    gates := gates
    G0 := G0
    SPAM := SPAM
    SP0 := SP0
    level := confidenceLevel }

/-- Constructor `ConfidenceRegion.__init__`.  The result is either a Python exception or
the pair (warnings issued, constructed object).  The order of the checks
follows the source: the `hessianProjection` dispatch (lines 66-76) comes
first, then `assert(confidenceLevel > 0.0 and confidenceLevel < 100.0)`
(line 83), the small-level warning (lines 84-87), and
`assert(np.isclose(C1, seScaleFctr**2))` (line 98); only then is the
eigendecomposition of the quadratic form consumed (line 110, inside
`buildRegion`). -/
def mkConfidenceRegion (n : ℕ) (L : NumLib n) (GS : GateSetInputs n)
    (hessian : Mat n) (confidenceLevel : ℚ) (hessianProjection : String)
    (optProjection : Mat n) (gates : GatesParam) (G0 SPAM SP0 : Bool) :
    Except PyError (List String × ConfidenceRegion n) :=
  match projectHessian n GS.proj_non_gauge hessian hessianProjection optProjection with
  | .error e => .error e
  | .ok projected_hessian =>
    if 0 < confidenceLevel ∧ confidenceLevel < 100 then
      let warnings := if confidenceLevel < 1 then [smallLevelWarning confidenceLevel] else []
      let C1 := L.chi2ppf (confidenceLevel / 100) 1
      let seScaleFctr := -(L.normppf ((1 - confidenceLevel / 100) / 2))
      if isclose C1 (seScaleFctr ^ 2) then
        .ok (warnings,
          buildRegion n L GS projected_hessian confidenceLevel gates G0 SPAM SP0)
      else .error (.assertionError "np.isclose(C1, seScaleFctr**2)")
    else .error (.assertionError "confidenceLevel > 0.0 and confidenceLevel < 100.0")

/-- Method `ConfidenceRegion.get_profile_likelihood_confidence_intervals`
(lines 178-201): the full `profLCI` vector, or the Python slice
`profLCI[start:end]` for a labelled object. -/
def ConfidenceRegion.get_profile_likelihood_confidence_intervals {n : ℕ}
    (cr : ConfidenceRegion n) (label : Option String) : List ℚ :=
  match label with
  | none => (List.finRange n).map cr.profLCI
  | some lbl =>
    let se := cr.gateset_offsets lbl
    (((List.finRange n).map cr.profLCI).take se.2).drop se.1

/-!
## Mutable Python objects

The interval-propagation methods perturb a *copy* of a gate / gate-set object
in place.  To state anything about mutation we model the Python object store
explicitly: a heap of abstract object values `V` addressed by `ℕ`, where
`.copy()` allocates a fresh cell and in-place methods (`from_vector`,
`set_rhovec`, `set_evec`) write to a cell.  The region object holds the
address `gsPtr` of its stored gate-set estimate.
-/

/-- A heap of Python objects: `mem` gives the value at each address, `next`
is the next fresh address (every live address is `< next`). -/
structure Store (V : Type) where
  mem : ℕ → V
  next : ℕ

/-- Dereference an address. -/
def Store.read {V : Type} (s : Store V) (p : ℕ) : V := s.mem p

/-- In-place mutation of the object at address `p`. -/
def Store.write {V : Type} (s : Store V) (p : ℕ) (v : V) : Store V :=
  ⟨fun q => if q = p then v else s.mem q, s.next⟩

/-- Allocation modelling `.copy()`: put a value in a fresh cell, returning the new store and the
fresh address. -/
def Store.alloc {V : Type} (s : Store V) (v : V) : Store V × ℕ :=
  (⟨fun q => if q = s.next then v else s.mem q, s.next + 1⟩, s.next)

/-- One iteration of a finite-difference loop, shared shape of the three
propagation methods: mutate the working copy at address `p` in place
(`newVal`), then record the finite-difference quotient (`gval`, evaluated on
the mutated store) at gradient index `idx i`. -/
def fdStep {V : Type} (p : ℕ) (newVal : Store V → ℕ → V) (idx : ℕ → ℕ)
    (gval : Store V → ℕ → ℚ) (acc : Store V × (ℕ → ℚ)) (i : ℕ) :
    Store V × (ℕ → ℚ) :=
  let st2 := acc.1.write p (newVal acc.1 i)
  (st2, Function.update acc.2 (idx i) (gval st2 i))

/-- The state-and-gradient part of `get_gateset_fn_confidence_interval`
(lines 298-317).  `copyGs`, `to_vector`, `from_vector` are the external
`GateSet` methods; `fnOfGateset` is the caller function (scalar-real-valued
case).  `self.gateset` lives at address `gsPtr`; the method works on the
fresh copy, whose address is `(st.alloc _).2`. -/
def get_gateset_fn_ci_state {V : Type} (copyGs : V → V) (to_vector : V → List ℚ)
    (from_vector : V → List ℚ → V) (fnOfGateset : V → ℚ) (eps : ℚ)
    (nParams : ℕ) (st : Store V) (gsPtr : ℕ) : Store V × (ℕ → ℚ) :=
  let a := st.alloc (copyGs (st.read gsPtr))
  let f0 := fnOfGateset (a.1.read a.2)
  let gatesetVec0 := to_vector (a.1.read a.2)
  (List.range nParams).foldl
    (fdStep a.2
      (fun st1 i => from_vector (st1.read a.2)
        (gatesetVec0.set i (gatesetVec0.getD i 0 + eps)))
      (fun i => i)
      (fun st2 _ => (fnOfGateset (st2.read a.2) - f0) / eps))
    (a.1, fun _ => 0)

/-- The state-and-gradient part of `get_gate_fn_confidence_interval`
(lines 239-261).  `gateset_item gs label` is `self.gateset[gateLabel]` (the
gate matrix, type `M`); `get_gate`/`copyGate` give the working copy
`self.gateset.get_gate(gateLabel).copy()`; `gpo` is
`self.gateset_offsets[gateLabel][0]` and `active` is the
`gates == True or gateLabel in gates` condition guarding the loop. -/
def get_gate_fn_ci_state {V M : Type} (get_gate : V → String → V)
    (copyGate : V → V) (gate_matrix : V → M) (gateset_item : V → String → M)
    (gate_to_vector : V → List ℚ) (gate_from_vector : V → List ℚ → V)
    (fnOfGate : M → ℚ) (eps : ℚ) (gateLabel : String) (gpo nGateParams : ℕ)
    (active : Bool) (st : Store V) (gsPtr : ℕ) : Store V × (ℕ → ℚ) :=
  let gateMx := gateset_item (st.read gsPtr) gateLabel
  let a := st.alloc (copyGate (get_gate (st.read gsPtr) gateLabel))
  let f0 := fnOfGate gateMx
  let gateVec0 := gate_to_vector (a.1.read a.2)
  if active then
    (List.range nGateParams).foldl
      (fdStep a.2
        (fun st1 i => gate_from_vector (st1.read a.2)
          (gateVec0.set i (gateVec0.getD i 0 + eps)))
        (fun i => gpo + i)
        (fun st2 _ => (fnOfGate (gate_matrix (st2.read a.2)) - f0) / eps))
      (a.1, fun _ => 0)
  else (a.1, fun _ => 0)

/-- The state-and-gradient part of `get_spam_fn_confidence_interval`
(lines 355-391).  `rhoVecsOf` / `EVecsOf` read the raw `rhoVecs` / `EVecs`
lists of the stored gate set; `spamFn gs` is
`fnOfSpamVecs(gs.get_rhovecs(), gs.get_evecs())`.  If `SPAM` is off the
gradient stays all-zero; otherwise the loops perturb the fresh copy `gsEps`
via `set_rhovec` / `set_evec` and restore the original vector after each
object. -/
def get_spam_fn_ci_state {V : Type} (copyGs : V → V)
    (rhoVecsOf EVecsOf : V → List (List ℚ))
    (set_rhovec set_evec : V → List ℚ → ℕ → V) (spamFn : V → ℚ) (eps : ℚ)
    (SPAMflag SP0 : Bool) (offs : String → ℕ × ℕ) (st : Store V)
    (gsPtr : ℕ) : Store V × (ℕ → ℚ) :=
  let f0 := spamFn (st.read gsPtr)
  if SPAMflag then
    let a := st.alloc (copyGs (st.read gsPtr))
    let p := a.2
    let afterRho := ((rhoVecsOf (st.read gsPtr)).enum).foldl
      (fun acc kv =>
        let k := kv.1
        let rhoVec := kv.2
        let nRhoParams := if SP0 then rhoVec.length else rhoVec.length - 1
        let m := if SP0 then 0 else 1
        let off := (offs ("rho" ++ toString k)).1
        let inner := (List.range nRhoParams).foldl
          (fdStep p
            (fun st1 i => set_rhovec (st1.read p)
              (rhoVec.set (m + i) (rhoVec.getD (m + i) 0 + eps)) k)
            (fun i => off + i)
            (fun st2 _ => (spamFn (st2.read p) - f0) / eps)) acc
        (inner.1.write p (set_rhovec (inner.1.read p) rhoVec k), inner.2))
      (a.1, fun _ => 0)
    ((EVecsOf (st.read gsPtr)).enum).foldl
      (fun acc kv =>
        let k := kv.1
        let EVec := kv.2
        let off := (offs ("E" ++ toString k)).1
        let inner := (List.range EVec.length).foldl
          (fdStep p
            (fun st1 i => set_evec (st1.read p)
              (EVec.set i (EVec.getD i 0 + eps)) k)
            (fun i => off + i)
            (fun st2 _ => (spamFn (st2.read p) - f0) / eps)) acc
        (inner.1.write p (set_evec (inner.1.read p) EVec k), inner.2))
      afterRho
  else (st, fun _ => 0)

/-!
## `_compute_df_from_gradF`
-/

/-- The scalar quadratic-form half-width
`sqrt(abs(dot(gradFdag, dot(invRegionQuadcForm, gradF))))` (line 415; for a
real vector the conjugate transpose is a no-op). -/
def scalarDf {p : ℕ} (sqrt : ℚ → ℚ) (invQ : Mat p) (g : Fin p → ℚ) : ℚ :=
  sqrt |g ⬝ᵥ (invQ *ᵥ g)|

/-- The `ValueError` message of `_compute_df_from_gradF` for outputs with
more than 2 array dimensions (lines 438 and 459). -/
def unsupportedDimsMsg (d : ℕ) : String :=
  "Unsupported number of dimensions returned by fnOfGate or fnOfGateset: " ++
    toString d

/-- The possible `(f0, gradF)` inputs of `_compute_df_from_gradF`: a Python
`float` with its 1-D gradient, a real numpy array, or a complex numpy array
(complex numbers as real/imaginary rational pairs).  Array data is indexed by
the multi-index (a `List ℕ` whose length is the number of array dimensions);
the gradient carries the parameter axis last, as after the `rollaxis` call
(line 418). -/
inductive PyVal (p : ℕ) where
  | pyfloat (f0 : ℚ) (gradF : Fin p → ℚ)
  | realArr (shape : List ℕ) (f0 : List ℕ → ℚ) (gradF : List ℕ → Fin p → ℚ)
  | cplxArr (shape : List ℕ) (f0re f0im : List ℕ → ℚ)
      (gradFre gradFim : List ℕ → Fin p → ℚ)

/-- The `df` result of `_compute_df_from_gradF`: a scalar, a real array, or a
complex array of half-widths. -/
inductive DfVal where
  | scalar (df : ℚ)
  | realArr (shape : List ℕ) (df : List ℕ → ℚ)
  | cplxArr (shape : List ℕ) (dfre dfim : List ℕ → ℚ)

/-- Method `ConfidenceRegion._compute_df_from_gradF` (lines 394-464, with
`returnFnVal = False`).  A Python `float` takes the scalar path (line 415).
An array output dispatches on `fDims = len(f0.shape)`: dimensions 0, 1 and 2
each apply the scalar quadratic form independently per output element
(complex arrays: separately to the real and imaginary parts, recombined as
`re + i*im`); any higher dimensionality raises the explicit `ValueError`. -/
def compute_df_from_gradF {p : ℕ} (sqrt : ℚ → ℚ) (invQ : Mat p) :
    PyVal p → Except PyError DfVal
  | .pyfloat _ g => .ok (.scalar (scalarDf sqrt invQ g))
  | .cplxArr shape _ _ gr gi =>
    match shape with
    | [] => .ok (.cplxArr shape (fun ix => scalarDf sqrt invQ (gr ix))
        (fun ix => scalarDf sqrt invQ (gi ix)))
    | [_] => .ok (.cplxArr shape (fun ix => scalarDf sqrt invQ (gr ix))
        (fun ix => scalarDf sqrt invQ (gi ix)))
    | [_, _] => .ok (.cplxArr shape (fun ix => scalarDf sqrt invQ (gr ix))
        (fun ix => scalarDf sqrt invQ (gi ix)))
    | _ => .error (.valueError (unsupportedDimsMsg shape.length))
  | .realArr shape _ g =>
    match shape with
    | [] => .ok (.realArr shape fun ix => scalarDf sqrt invQ (g ix))
    | [_] => .ok (.realArr shape fun ix => scalarDf sqrt invQ (g ix))
    | [_, _] => .ok (.realArr shape fun ix => scalarDf sqrt invQ (g ix))
    | _ => .error (.valueError (unsupportedDimsMsg shape.length))

/-- Method `get_gate_fn_confidence_interval` for a scalar-real-valued `fnOfGate`
(with `returnFnVal = False`): run the finite-difference state computation,
then propagate the gradient through `invRegionQuadcForm` via
`_compute_df_from_gradF`.  Returns the final object store and `df`. -/
def ConfidenceRegion.get_gate_fn_confidence_interval {n : ℕ} {V M : Type}
    (cr : ConfidenceRegion n) (get_gate : V → String → V) (copyGate : V → V)
    (gate_matrix : V → M) (gateset_item : V → String → M)
    (gate_to_vector : V → List ℚ) (gate_from_vector : V → List ℚ → V)
    (sqrt : ℚ → ℚ) (fnOfGate : M → ℚ) (gateLabel : String) (eps : ℚ)
    (nGateParams : ℕ) (st : Store V) (gsPtr : ℕ) : Store V × ℚ :=
  let r := get_gate_fn_ci_state get_gate copyGate gate_matrix gateset_item
    gate_to_vector gate_from_vector fnOfGate eps gateLabel
    ((cr.gateset_offsets gateLabel).1) nGateParams
    (gateIsActive cr.gates gateLabel) st gsPtr
  (r.1, scalarDf sqrt cr.invRegionQuadcForm fun i : Fin n => r.2 i.val)

/-!
## Concrete instantiations used by the witness theorems
-/

/-- Concrete numerical library for witnesses: `chi2ppf = 4`, `normppf = -2`
(so the `isclose` assertion holds), `sqrt = 0`, `eigh` returning eigenvalues
all `1` and the identity eigenvector matrix, rank `0`. -/
def wNum : NumLib 1 :=
  { chi2ppf := fun _ _ => 4
    normppf := fun _ => -2
    sqrt := fun _ => 0
    eigh := fun _ => (fun _ => 1, 1)
    matrixRank := fun _ => 0 }

/-- Concrete gate-set inputs for witnesses: identity non-gauge projector and
offsets `(0, 1)` for every label. -/
def wGS : GateSetInputs 1 := { proj_non_gauge := 1, offsets := fun _ => (0, 1) }

/-- Concrete Hessian for witnesses. -/
def wHess : Mat 1 := 1

/-- The region built from the witness fixtures at confidence level 95. -/
def wCR : ConfidenceRegion 1 :=
  buildRegion 1 wNum wGS wHess 95 (.flag true) true true true

/-- Constant-zero array data used by the `C8` witness. -/
def wArrF : List ℕ → ℚ := fun _ => 0

/-- Constant-zero array gradient used by the `C8` witness. -/
def wArrG : List ℕ → Fin 1 → ℚ := fun _ _ => 0

/-!
## Helper lemmas
-/

theorem Store.read_write_ne {V : Type} (s : Store V) (p q : ℕ) (v : V)
    (h : q ≠ p) : (s.write p v).read q = s.read q := by
  simp [Store.write, Store.read, h]

theorem Store.read_alloc_lt {V : Type} (s : Store V) (v : V) (q : ℕ)
    (h : q < s.next) : ((s.alloc v).1).read q = s.read q := by
  simp [Store.alloc, Store.read, Nat.ne_of_lt h]

theorem Store.alloc_snd {V : Type} (s : Store V) (v : V) :
    (s.alloc v).2 = s.next := rfl

theorem List.foldl_invariant {α β : Type _} (P : β → Prop) (f : β → α → β)
    (hf : ∀ b a, P b → P (f b a)) :
    ∀ (l : List α) (init : β), P init → P (l.foldl f init) := by
  intro l
  induction l with
  | nil => intro init h; exact h
  | cons x xs ih => intro init h; exact ih (f init x) (hf init x h)

theorem fdStep_read_ne {V : Type} (p q : ℕ) (h : q ≠ p)
    (newVal : Store V → ℕ → V) (idx : ℕ → ℕ) (gval : Store V → ℕ → ℚ)
    (acc : Store V × (ℕ → ℚ)) (i : ℕ) :
    ((fdStep p newVal idx gval acc i).1).read q = acc.1.read q :=
  Store.read_write_ne acc.1 p q _ h

theorem fdStep_foldl_apply_ne {V : Type} (p : ℕ) (newVal : Store V → ℕ → V)
    (idx : ℕ → ℕ) (gval : Store V → ℕ → ℚ) (k : ℕ) :
    ∀ (l : List ℕ) (init : Store V × (ℕ → ℚ)), (∀ i ∈ l, idx i ≠ k) →
      ((l.foldl (fdStep p newVal idx gval) init).2) k = init.2 k := by
  intro l
  induction l with
  | nil => intro init _; rfl
  | cons x xs ih =>
    intro init hk
    have h1 : ((fdStep p newVal idx gval init x).2) k = init.2 k := by
      simp [fdStep, Function.update_apply,
        Ne.symm (hk x (List.mem_cons_self x xs))]
    rw [List.foldl_cons, ih _ (fun i hi => hk i (List.mem_cons_of_mem x hi)), h1]

/-- Inversion of a successful `ConfidenceRegion.__init__`: the projection
succeeded, both asserts held, the warning list is as issued, and the object
is the `buildRegion` computation on the projected Hessian. -/
theorem mk_ok_elim {n : ℕ} {L : NumLib n} {GS : GateSetInputs n}
    {hessian : Mat n} {confidenceLevel : ℚ} {hessianProjection : String}
    {optProjection : Mat n} {gates : GatesParam} {G0 SPAM SP0 : Bool}
    {ws : List String} {cr : ConfidenceRegion n}
    (h : mkConfidenceRegion n L GS hessian confidenceLevel hessianProjection
      optProjection gates G0 SPAM SP0 = .ok (ws, cr)) :
    ∃ PH, projectHessian n GS.proj_non_gauge hessian hessianProjection
        optProjection = .ok PH ∧
      (0 < confidenceLevel ∧ confidenceLevel < 100) ∧
      isclose (L.chi2ppf (confidenceLevel / 100) 1)
        ((-(L.normppf ((1 - confidenceLevel / 100) / 2))) ^ 2) ∧
      ws = (if confidenceLevel < 1 then [smallLevelWarning confidenceLevel]
        else []) ∧
      cr = buildRegion n L GS PH confidenceLevel gates G0 SPAM SP0 := by
  unfold mkConfidenceRegion at h
  split at h
  · exact absurd h (by simp)
  next PH hp =>
    split at h
    next hl =>
      split at h
      next hsmall =>
        dsimp only at h
        split at h
        next hclose =>
          simp only [Except.ok.injEq, Prod.mk.injEq] at h
          refine ⟨PH, hp, hl, hclose, ?_, h.2.symm⟩
          rw [if_pos hsmall]
          exact h.1.symm
        next => exact absurd h (by simp)
      next hsmall =>
        dsimp only at h
        split at h
        next hclose =>
          simp only [Except.ok.injEq, Prod.mk.injEq] at h
          refine ⟨PH, hp, hl, hclose, ?_, h.2.symm⟩
          rw [if_neg hsmall]
          exact h.1.symm
        next => exact absurd h (by simp)
    next => exact absurd h (by simp)

/-- The ordering-index list is a permutation of all indices, hence has no
duplicates. -/
theorem orderInds_nodup (n : ℕ) (evals : Fin n → ℚ) :
    (orderInds n evals).Nodup :=
  (List.mergeSort_perm (List.finRange n) _).nodup_iff.mpr (List.nodup_finRange n)

/-- An index among the `nGaugeParams` smallest-magnitude positions has
inverse eigenvalue exactly `0`. -/
theorem invEvals_eq_zero_of_mem_take {n : ℕ} (nG : ℕ) (evals : Fin n → ℚ)
    {i : Fin n} (hi : i ∈ (orderInds n evals).take nG) :
    invEvals n nG evals i = 0 := by
  have hnd := orderInds_nodup n evals
  rw [← List.take_append_drop nG (orderInds n evals), List.nodup_append] at hnd
  have hnot : i ∉ (orderInds n evals).drop nG := fun hmem => hnd.2.2 hi hmem
  simp [invEvals, hnot]

/-- If `U` has orthonormal columns, the reconstructed pseudo-inverse
annihilates every eigenvector column whose ordering index is in the gauge
(smallest-magnitude) group. -/
theorem mulVec_gauge_col_zero {n : ℕ} (nG : ℕ) (evals : Fin n → ℚ)
    (U : Mat n) (hU : Uᵀ * U = 1) {i : Fin n}
    (hi : i ∈ (orderInds n evals).take nG) :
    (U * Matrix.diagonal (invEvals n nG evals) * Uᵀ) *ᵥ (fun j => U j i) = 0 := by
  have hcol : (fun j => U j i) = U *ᵥ Pi.single i 1 := by
    rw [Matrix.mulVec_single_one]
    rfl
  rw [hcol, Matrix.mulVec_mulVec,
    Matrix.mul_assoc (U * Matrix.diagonal (invEvals n nG evals)) Uᵀ U, hU,
    Matrix.mul_one]
  ext j
  simp [Matrix.mul_diagonal, invEvals_eq_zero_of_mem_take nG evals hi]

/-!
## The claims
-/

/-- C1: For every `ConfidenceRegion` construction, the stored inverse
quadratic form `invRegionQuadcForm` is obtained by eigendecomposing
`Q = U*diag(evals)*Uᵗ`, sorting the eigenvalues by ascending absolute
magnitude, zeroing the inverses of the `nGaugeParams` smallest-magnitude
eigenvalues, inverting each remaining eigenvalue as `1/eval`, and
reconstructing `U*diag(invEvals)*Uᵗ`; consequently (`eigh` returning
orthonormal columns, `Uᵗ*U = 1`) the reconstructed form annihilates each
gauge-direction eigenvector — its eigenvalue along every gauge direction is
exactly zero. -/
theorem c1_invQ_gauge_pseudoinverse {n : ℕ} {L : NumLib n}
    {GS : GateSetInputs n} {hessian : Mat n} {level : ℚ} {mode : String}
    {optP : Mat n} {gates : GatesParam} {G0 SPAM SP0 : Bool}
    {ws : List String} {cr : ConfidenceRegion n}
    (h : mkConfidenceRegion n L GS hessian level mode optP gates G0 SPAM SP0
      = .ok (ws, cr))
    (hU : cr.Uᵀ * cr.U = 1) :
    cr.invRegionQuadcForm = cr.U *
      Matrix.diagonal (invEvals n cr.nGaugeParams
        ((L.eigh cr.regionQuadcForm).1)) * cr.Uᵀ
    ∧ ∀ i ∈ (orderInds n ((L.eigh cr.regionQuadcForm).1)).take cr.nGaugeParams,
        cr.invRegionQuadcForm *ᵥ (fun j => cr.U j i) = 0 := by
  obtain ⟨PH, hp, hl, hc, hws, hcr⟩ := mk_ok_elim h
  subst hcr
  refine ⟨rfl, fun i hi => ?_⟩
  exact mulVec_gauge_col_zero _ _ _ hU hi

/-- Witness for C1 at a concrete construction. -/
theorem c1_invQ_gauge_pseudoinverse_witness :
    (mkConfidenceRegion 1 wNum wGS wHess 95 "none" 0 (.flag true) true true
        true = .ok ([], wCR))
    ∧ (wCR.Uᵀ * wCR.U = 1)
    ∧ (wCR.invRegionQuadcForm = wCR.U *
        Matrix.diagonal (invEvals 1 wCR.nGaugeParams
          ((wNum.eigh wCR.regionQuadcForm).1)) * wCR.Uᵀ
      ∧ ∀ i ∈ (orderInds 1 ((wNum.eigh wCR.regionQuadcForm).1)).take
          wCR.nGaugeParams,
          wCR.invRegionQuadcForm *ᵥ (fun j => wCR.U j i) = 0) :=
  by
  have hmk : mkConfidenceRegion 1 wNum wGS wHess 95 "none" 0 (.flag true)
      true true true = .ok ([], wCR) := by
    unfold mkConfidenceRegion projectHessian
    norm_num [isclose, wNum, wCR]
  have hU : wCR.Uᵀ * wCR.U = 1 := by
    show (1 : Mat 1)ᵀ * 1 = 1
    simp
  exact ⟨hmk, hU, c1_invQ_gauge_pseudoinverse hmk hU⟩

/-- C2: For every valid `confidenceLevel` in `(0,100)` (implied by a
successful construction), the constructor sets `C1` to the chi-squared
quantile with 1 degree of freedom at `level/100` and `Ck` to the chi-squared
quantile with `nNonGaugeParams` degrees of freedom, asserts
`C1 == seScaleFctr**2` with `seScaleFctr = -norm.ppf((1-level/100)/2)`
(the assert held, first conjunct), and stores
`Q = projected_hessian / C1` and `intervalScaling = sqrt(Ck / C1)`. -/
theorem c2_calibration {n : ℕ} {L : NumLib n} {GS : GateSetInputs n}
    {hessian : Mat n} {level : ℚ} {mode : String} {optP : Mat n}
    {gates : GatesParam} {G0 SPAM SP0 : Bool} {ws : List String}
    {cr : ConfidenceRegion n} {PH : Mat n}
    (hproj : projectHessian n GS.proj_non_gauge hessian mode optP = .ok PH)
    (h : mkConfidenceRegion n L GS hessian level mode optP gates G0 SPAM SP0
      = .ok (ws, cr)) :
    (0 < level ∧ level < 100)
    ∧ isclose (L.chi2ppf (level / 100) 1)
        ((-(L.normppf ((1 - level / 100) / 2))) ^ 2)
    ∧ cr.regionQuadcForm
        = Matrix.of (fun i j => PH i j / L.chi2ppf (level / 100) 1)
    ∧ cr.intervalScaling
        = L.sqrt (L.chi2ppf (level / 100) (L.matrixRank GS.proj_non_gauge)
            / L.chi2ppf (level / 100) 1)
    ∧ cr.nNonGaugeParams = L.matrixRank GS.proj_non_gauge := by
  obtain ⟨PH2, hp, hl, hc, hws, hcr⟩ := mk_ok_elim h
  rw [hproj] at hp
  obtain rfl : PH = PH2 := by
    simpa using hp
  subst hcr
  exact ⟨hl, hc, rfl, rfl, rfl⟩

/-- Witness for C2 at a concrete construction. -/
theorem c2_calibration_witness :
    (projectHessian 1 wGS.proj_non_gauge wHess "none" 0 = .ok wHess)
    ∧ (mkConfidenceRegion 1 wNum wGS wHess 95 "none" 0 (.flag true) true true
        true = .ok ([], wCR))
    ∧ ((0 < (95:ℚ) ∧ (95:ℚ) < 100)
      ∧ isclose (wNum.chi2ppf (95 / 100) 1)
          ((-(wNum.normppf ((1 - 95 / 100) / 2))) ^ 2)
      ∧ wCR.regionQuadcForm
          = Matrix.of (fun i j => wHess i j / wNum.chi2ppf (95 / 100) 1)
      ∧ wCR.intervalScaling
          = wNum.sqrt (wNum.chi2ppf (95 / 100)
              (wNum.matrixRank wGS.proj_non_gauge) / wNum.chi2ppf (95 / 100) 1)
      ∧ wCR.nNonGaugeParams = wNum.matrixRank wGS.proj_non_gauge) := by
  have hproj : projectHessian 1 wGS.proj_non_gauge wHess "none" 0
      = .ok wHess := by
    norm_num [projectHessian]
  have hmk : mkConfidenceRegion 1 wNum wGS wHess 95 "none" 0 (.flag true)
      true true true = .ok ([], wCR) := by
    unfold mkConfidenceRegion projectHessian
    norm_num [isclose, wNum, wCR]
  exact ⟨hproj, hmk, c2_calibration hproj hmk⟩

/-- C3: For every `ConfidenceRegion` and parameter index `k`, the
stored profile-likelihood interval is `profLCI[k] = sqrt(|invQ[k,k]|)`;
hence (with `numpy.sqrt` nonnegative on nonnegative inputs) every entry of
the vector returned by `get_profile_likelihood_confidence_intervals` is
nonnegative. -/
theorem c3_profLCI_sqrt_abs_diag {n : ℕ} {L : NumLib n} {GS : GateSetInputs n}
    {hessian : Mat n} {level : ℚ} {mode : String} {optP : Mat n}
    {gates : GatesParam} {G0 SPAM SP0 : Bool} {ws : List String}
    {cr : ConfidenceRegion n}
    (h : mkConfidenceRegion n L GS hessian level mode optP gates G0 SPAM SP0
      = .ok (ws, cr))
    (hsqrt : ∀ x : ℚ, 0 ≤ x → 0 ≤ L.sqrt x) :
    (∀ k, cr.profLCI k = L.sqrt |cr.invRegionQuadcForm k k|)
    ∧ ∀ (label : Option String) (x : ℚ),
        x ∈ cr.get_profile_likelihood_confidence_intervals label → 0 ≤ x := by
  obtain ⟨PH, hp, hl, hc, hws, hcr⟩ := mk_ok_elim h
  subst hcr
  refine ⟨fun k => rfl, fun label x hx => ?_⟩
  have hmem : x ∈ (List.finRange n).map
      (buildRegion n L GS PH level gates G0 SPAM SP0).profLCI := by
    cases label with
    | none => exact hx
    | some lbl =>
      exact List.mem_of_mem_take (List.mem_of_mem_drop hx)
  obtain ⟨k, _, hk⟩ := List.mem_map.mp hmem
  subst hk
  exact hsqrt _ (abs_nonneg _)

/-- Witness for C3 at a concrete construction. -/
theorem c3_profLCI_sqrt_abs_diag_witness :
    (mkConfidenceRegion 1 wNum wGS wHess 95 "none" 0 (.flag true) true true
        true = .ok ([], wCR))
    ∧ (∀ x : ℚ, 0 ≤ x → 0 ≤ wNum.sqrt x)
    ∧ ((∀ k, wCR.profLCI k = wNum.sqrt |wCR.invRegionQuadcForm k k|)
      ∧ ∀ (label : Option String) (x : ℚ),
          x ∈ wCR.get_profile_likelihood_confidence_intervals label → 0 ≤ x) := by
  have hmk : mkConfidenceRegion 1 wNum wGS wHess 95 "none" 0 (.flag true)
      true true true = .ok ([], wCR) := by
    unfold mkConfidenceRegion projectHessian
    norm_num [isclose, wNum, wCR]
  have hsqrt : ∀ x : ℚ, 0 ≤ x → 0 ≤ wNum.sqrt x := by
    intro x _
    simp [wNum]
  exact ⟨hmk, hsqrt, c3_profLCI_sqrt_abs_diag hmk hsqrt⟩

/-- C4: For every Hessian `H` and idempotent non-gauge projector `P`,
building with projection mode `"none"` on the already-projected Hessian
`P*H*P` yields the same result (in particular the same `Q` and `invQ`) as
building with mode `"std"` on the unprojected `H`, all other inputs equal. -/
theorem c4_none_on_projected_eq_std {n : ℕ} {L : NumLib n}
    {GS : GateSetInputs n} {hessian : Mat n} {level : ℚ} {optP : Mat n}
    {gates : GatesParam} {G0 SPAM SP0 : Bool}
    (hP : GS.proj_non_gauge * GS.proj_non_gauge = GS.proj_non_gauge) :
    mkConfidenceRegion n L GS
      (GS.proj_non_gauge * hessian * GS.proj_non_gauge) level "none" optP
      gates G0 SPAM SP0
    = mkConfidenceRegion n L GS hessian level "std" optP gates G0 SPAM SP0 := by
  unfold mkConfidenceRegion projectHessian
  norm_num
  rw [if_neg (by decide : ¬ ("std" : String) = "none")]

/-- Witness for C4 at a concrete idempotent projector. -/
theorem c4_none_on_projected_eq_std_witness :
    (wGS.proj_non_gauge * wGS.proj_non_gauge = wGS.proj_non_gauge)
    ∧ mkConfidenceRegion 1 wNum wGS
        (wGS.proj_non_gauge * wHess * wGS.proj_non_gauge) 95 "none" 0
        (.flag true) true true true
      = mkConfidenceRegion 1 wNum wGS wHess 95 "std" 0 (.flag true) true true
          true := by
  have hP : wGS.proj_non_gauge * wGS.proj_non_gauge = wGS.proj_non_gauge := by
    show (1 : Mat 1) * 1 = 1
    simp
  exact ⟨hP, c4_none_on_projected_eq_std hP⟩

/-- C5: For every projection-mode string other than `"none"`, `"std"`
and `"optimal gate CIs"`, construction fails with the `ValueError`; the
result is this error for *every* numerical library `L` (in particular for
every `eigh`), so the failure precedes any eigendecomposition. -/
theorem c5_invalid_projection_mode {n : ℕ} {L : NumLib n}
    {GS : GateSetInputs n} {hessian : Mat n} {level : ℚ} {mode : String}
    {optP : Mat n} {gates : GatesParam} {G0 SPAM SP0 : Bool}
    (h1 : mode ≠ "none") (h2 : mode ≠ "std") (h3 : mode ≠ "optimal gate CIs") :
    mkConfidenceRegion n L GS hessian level mode optP gates G0 SPAM SP0
    = .error (.valueError
        ("Invalid value of hessianProjection argument: " ++ mode)) := by
  unfold mkConfidenceRegion projectHessian
  simp [h1, h2, h3]

/-- Witness for C5 with the mode string `"bogus"`. -/
theorem c5_invalid_projection_mode_witness :
    ("bogus" ≠ "none") ∧ ("bogus" ≠ "std") ∧ ("bogus" ≠ "optimal gate CIs")
    ∧ mkConfidenceRegion 1 wNum wGS wHess 95 "bogus" 0 (.flag true) true true
        true
      = .error (.valueError
          ("Invalid value of hessianProjection argument: " ++ "bogus")) :=
  ⟨by decide, by decide, by decide,
   c5_invalid_projection_mode (by decide) (by decide) (by decide)⟩

/-- C6: In `get_gate_fn_confidence_interval`, a gradient entry can be
nonzero only inside the parameter block
`[gpo, gpo + nGateParams)` of the target gate, and only when the `gates`
flag is `True` or is a list/tuple containing `gateLabel`; every entry
outside that block remains zero. -/
theorem c6_gate_gradient_only_own_block {V M : Type} (get_gate : V → String → V)
    (copyGate : V → V) (gate_matrix : V → M) (gateset_item : V → String → M)
    (gate_to_vector : V → List ℚ) (gate_from_vector : V → List ℚ → V)
    (fnOfGate : M → ℚ) (eps : ℚ) (gateLabel : String) (gpo nGateParams : ℕ)
    (gatesFlag : GatesParam) (st : Store V) (gsPtr : ℕ) (k : ℕ)
    (hne : (get_gate_fn_ci_state get_gate copyGate gate_matrix gateset_item
        gate_to_vector gate_from_vector fnOfGate eps gateLabel gpo nGateParams
        (gateIsActive gatesFlag gateLabel) st gsPtr).2 k ≠ 0) :
    (gatesFlag = .flag true ∨ ∃ ls, gatesFlag = .labels ls ∧ gateLabel ∈ ls)
    ∧ gpo ≤ k ∧ k < gpo + nGateParams := by
  cases hact : gateIsActive gatesFlag gateLabel with
  | false =>
    rw [hact] at hne
    simp [get_gate_fn_ci_state] at hne
  | true =>
    rw [hact] at hne
    refine ⟨?_, ?_⟩
    · cases gatesFlag with
      | flag b =>
        left
        have hb : b = true := hact
        rw [hb]
      | labels ls =>
        right
        refine ⟨ls, rfl, ?_⟩
        simpa [gateIsActive] using hact
    · by_contra hout
      apply hne
      have hk : ∀ i ∈ List.range nGateParams, gpo + i ≠ k := by
        intro i hi
        have := List.mem_range.mp hi
        omega
      unfold get_gate_fn_ci_state
      dsimp only
      rw [if_pos rfl]
      exact fdStep_foldl_apply_ne _ _ _ _ k _ _ hk

/-- Witness for C6: a concrete active gate with block `[1, 3)` whose
gradient entry at index 1 is nonzero. -/
theorem c6_gate_gradient_only_own_block_witness :
    ((get_gate_fn_ci_state (fun v _ => v) id (fun _ => (1 : ℚ))
        (fun _ _ => (0 : ℚ)) (fun _ => []) (fun v _ => v) id 1 "Gx" 1 2
        (gateIsActive (.flag true) "Gx") ⟨fun _ => (0 : ℚ), 1⟩ 0).2 1 ≠ 0)
    ∧ ((GatesParam.flag true = .flag true
        ∨ ∃ ls, GatesParam.flag true = .labels ls ∧ "Gx" ∈ ls)
      ∧ 1 ≤ 1 ∧ 1 < 1 + 2) := by
  have hne : (get_gate_fn_ci_state (fun v _ => v) id (fun _ => (1 : ℚ))
      (fun _ _ => (0 : ℚ)) (fun _ => []) (fun v _ => v) id 1 "Gx" 1 2
      (gateIsActive (.flag true) "Gx") ⟨fun _ => (0 : ℚ), 1⟩ 0).2 1 ≠ 0 := by
    norm_num [get_gate_fn_ci_state, fdStep, Store.read, Store.write,
      Store.alloc, Function.update, gateIsActive]
    decide
  exact ⟨hne, c6_gate_gradient_only_own_block _ _ _ _ _ _ _ _ _ _ _ _ _ _ _ hne⟩

/-- C8: `_compute_df_from_gradF` fails with the explicit `ValueError`
naming the dimensionality for every array output of more than 2 dimensions;
outputs of 0, 1 or 2 array dimensions (and Python floats) are processed by
applying the quadratic-form half-width independently per output element. -/
theorem c8_df_output_dims {p : ℕ} (invQ : Mat p) (sqrt : ℚ → ℚ)
    (shape : List ℕ) (f0 : List ℕ → ℚ) (g : List ℕ → Fin p → ℚ)
    (f0r f0i : List ℕ → ℚ) (gr gi : List ℕ → Fin p → ℚ) :
    (shape.length ≤ 2 →
      compute_df_from_gradF sqrt invQ (.realArr shape f0 g)
        = .ok (.realArr shape fun ix => scalarDf sqrt invQ (g ix))
      ∧ compute_df_from_gradF sqrt invQ (.cplxArr shape f0r f0i gr gi)
        = .ok (.cplxArr shape (fun ix => scalarDf sqrt invQ (gr ix))
            (fun ix => scalarDf sqrt invQ (gi ix))))
    ∧ (2 < shape.length →
      compute_df_from_gradF sqrt invQ (.realArr shape f0 g)
        = .error (.valueError (unsupportedDimsMsg shape.length))
      ∧ compute_df_from_gradF sqrt invQ (.cplxArr shape f0r f0i gr gi)
        = .error (.valueError (unsupportedDimsMsg shape.length)))
    ∧ ∀ (fv : ℚ) (gv : Fin p → ℚ),
        compute_df_from_gradF sqrt invQ (.pyfloat fv gv)
          = .ok (.scalar (scalarDf sqrt invQ gv)) := by
  refine ⟨fun hlen => ?_, fun hlen => ?_, fun fv gv => rfl⟩
  · rcases shape with _ | ⟨a, _ | ⟨b, _ | ⟨c, rest⟩⟩⟩
    · exact ⟨rfl, rfl⟩
    · exact ⟨rfl, rfl⟩
    · exact ⟨rfl, rfl⟩
    · simp at hlen
  · rcases shape with _ | ⟨a, _ | ⟨b, _ | ⟨c, rest⟩⟩⟩
    · simp at hlen
    · simp at hlen
    · simp at hlen
    · exact ⟨rfl, rfl⟩

/-- Witness for C8: a 1-dimensional output is processed elementwise and a
3-dimensional output raises the `ValueError`. -/
theorem c8_df_output_dims_witness :
    (compute_df_from_gradF wNum.sqrt (1 : Mat 1) (.realArr [2] wArrF wArrG)
        = .ok (.realArr [2] fun ix => scalarDf wNum.sqrt (1 : Mat 1) (wArrG ix))
      ∧ compute_df_from_gradF wNum.sqrt (1 : Mat 1)
          (.cplxArr [2] wArrF wArrF wArrG wArrG)
        = .ok (.cplxArr [2] (fun ix => scalarDf wNum.sqrt (1 : Mat 1) (wArrG ix))
            (fun ix => scalarDf wNum.sqrt (1 : Mat 1) (wArrG ix))))
    ∧ (compute_df_from_gradF wNum.sqrt (1 : Mat 1)
          (.realArr [2, 2, 2] wArrF wArrG)
        = .error (.valueError (unsupportedDimsMsg ([2, 2, 2] : List ℕ).length))
      ∧ compute_df_from_gradF wNum.sqrt (1 : Mat 1)
          (.cplxArr [2, 2, 2] wArrF wArrF wArrG wArrG)
        = .error (.valueError (unsupportedDimsMsg ([2, 2, 2] : List ℕ).length))) :=
  ⟨(c8_df_output_dims (1 : Mat 1) wNum.sqrt [2] wArrF wArrG wArrF wArrF wArrG
      wArrG).1 (by norm_num),
   (c8_df_output_dims (1 : Mat 1) wNum.sqrt [2, 2, 2] wArrF wArrG wArrF wArrF
      wArrG wArrG).2.1 (by norm_num)⟩

/-- C9: For any recognized projection mode, the constructor rejects via
an assertion failure every `confidenceLevel` outside the open interval
`(0,100)`; a level inside `(0,1)` triggers only the non-fatal warning and
construction runs to completion (provided the numerical `isclose` assert
holds, which concerns only the statistics provider). -/
theorem c9_level_validation {n : ℕ} {L : NumLib n} {GS : GateSetInputs n}
    {hessian : Mat n} {mode : String} {optP : Mat n} {gates : GatesParam}
    {G0 SPAM SP0 : Bool}
    (hmode : mode = "none" ∨ mode = "std" ∨ mode = "optimal gate CIs") :
    (∀ level : ℚ, ¬(0 < level ∧ level < 100) →
      mkConfidenceRegion n L GS hessian level mode optP gates G0 SPAM SP0
      = .error (.assertionError
          "confidenceLevel > 0.0 and confidenceLevel < 100.0"))
    ∧ ∀ level : ℚ, 0 < level → level < 1 →
        isclose (L.chi2ppf (level / 100) 1)
          ((-(L.normppf ((1 - level / 100) / 2))) ^ 2) →
        ∃ cr, mkConfidenceRegion n L GS hessian level mode optP gates G0 SPAM
          SP0 = .ok ([smallLevelWarning level], cr) := by
  have hproj : ∃ PH, projectHessian n GS.proj_non_gauge hessian mode optP
      = .ok PH := by
    rcases hmode with h | h | h <;> subst h <;> simp [projectHessian]
  obtain ⟨PH, hPH⟩ := hproj
  constructor
  · intro level hbad
    unfold mkConfidenceRegion
    rw [hPH]
    dsimp only
    rw [if_neg hbad]
  · intro level h0 h1 hcl
    have hl : 0 < level ∧ level < 100 := ⟨h0, lt_trans h1 (by norm_num)⟩
    unfold mkConfidenceRegion
    rw [hPH]
    dsimp only
    rw [if_pos hl, if_pos hcl, if_pos h1]
    exact ⟨_, rfl⟩

/-- Witness for C9: level 150 is rejected by the assert; level 1/2 only
warns and completes. -/
theorem c9_level_validation_witness :
    (¬((0:ℚ) < 150 ∧ (150:ℚ) < 100)
      ∧ mkConfidenceRegion 1 wNum wGS wHess 150 "std" 0 (.flag true) true true
          true
        = .error (.assertionError
            "confidenceLevel > 0.0 and confidenceLevel < 100.0"))
    ∧ ((0:ℚ) < 1/2) ∧ ((1:ℚ)/2 < 1)
    ∧ isclose (wNum.chi2ppf ((1/2) / 100) 1)
        ((-(wNum.normppf ((1 - (1/2) / 100) / 2))) ^ 2)
    ∧ ∃ cr, mkConfidenceRegion 1 wNum wGS wHess (1/2) "std" 0 (.flag true)
        true true true = .ok ([smallLevelWarning (1/2)], cr) := by
  have h := @c9_level_validation 1 wNum wGS wHess "std" 0 (.flag true) true
    true true (Or.inr (Or.inl rfl))
  have hbad : ¬((0:ℚ) < 150 ∧ (150:ℚ) < 100) := by norm_num
  have h0 : (0:ℚ) < 1/2 := by norm_num
  have h1 : (1:ℚ)/2 < 1 := by norm_num
  have hcl : isclose (wNum.chi2ppf ((1/2) / 100) 1)
      ((-(wNum.normppf ((1 - (1/2) / 100) / 2))) ^ 2) := by
    norm_num [isclose, wNum]
  exact ⟨⟨hbad, h.1 150 hbad⟩, h0, h1, hcl, h.2 (1/2) h0 h1 hcl⟩

/-- C7: Every interval-propagation call (`get_gate_fn_...`,
`get_gateset_fn_...`, `get_spam_fn_confidence_interval`) leaves the stored
gate-set estimate (the heap cell at `gsPtr`) unchanged: every perturbation
writes only to the freshly allocated private copy. -/
theorem c7_propagation_preserves_stored_gateset {V M : Type}
    (copyGs : V → V) (to_vector : V → List ℚ) (from_vector : V → List ℚ → V)
    (fnOfGateset : V → ℚ) (get_gate : V → String → V) (copyGate : V → V)
    (gate_matrix : V → M) (gateset_item : V → String → M)
    (gate_to_vector : V → List ℚ) (gate_from_vector : V → List ℚ → V)
    (fnOfGate : M → ℚ) (rhoVecsOf EVecsOf : V → List (List ℚ))
    (set_rhovec set_evec : V → List ℚ → ℕ → V) (spamFn : V → ℚ)
    (eps : ℚ) (nParams : ℕ) (gateLabel : String) (gpo nGateParams : ℕ)
    (active : Bool) (SPAMflag SP0 : Bool) (offs : String → ℕ × ℕ)
    (st : Store V) (gsPtr : ℕ) (hlt : gsPtr < st.next) :
    (get_gateset_fn_ci_state copyGs to_vector from_vector fnOfGateset eps
        nParams st gsPtr).1.read gsPtr = st.read gsPtr
    ∧ (get_gate_fn_ci_state get_gate copyGate gate_matrix gateset_item
        gate_to_vector gate_from_vector fnOfGate eps gateLabel gpo nGateParams
        active st gsPtr).1.read gsPtr = st.read gsPtr
    ∧ (get_spam_fn_ci_state copyGs rhoVecsOf EVecsOf set_rhovec set_evec
        spamFn eps SPAMflag SP0 offs st gsPtr).1.read gsPtr = st.read gsPtr := by
  have hne : gsPtr ≠ st.next := Nat.ne_of_lt hlt
  have hinv : ∀ (nv : Store V → ℕ → V) (ix : ℕ → ℕ) (gv : Store V → ℕ → ℚ)
      (l : List ℕ) (init : Store V × (ℕ → ℚ)),
      (l.foldl (fdStep st.next nv ix gv) init).1.read gsPtr
        = init.1.read gsPtr := by
    intro nv ix gv l init
    exact List.foldl_invariant (fun acc => acc.1.read gsPtr = init.1.read gsPtr)
      _ (fun b a hb => (fdStep_read_ne _ _ hne nv ix gv b a).trans hb) l init
      rfl
  have houter : ∀ (f : (Store V × (ℕ → ℚ)) → (ℕ × List ℚ) → Store V × (ℕ → ℚ)),
      (∀ acc kv, (f acc kv).1.read gsPtr = acc.1.read gsPtr) →
      ∀ (l : List (ℕ × List ℚ)) (init : Store V × (ℕ → ℚ)),
        (l.foldl f init).1.read gsPtr = init.1.read gsPtr := by
    intro f hf l init
    exact List.foldl_invariant (fun acc => acc.1.read gsPtr = init.1.read gsPtr)
      f (fun b a hb => (hf b a).trans hb) l init rfl
  refine ⟨?_, ?_, ?_⟩
  · unfold get_gateset_fn_ci_state
    dsimp only
    simp only [Store.alloc_snd]
    exact (hinv _ _ _ _ _).trans (Store.read_alloc_lt st _ gsPtr hlt)
  · unfold get_gate_fn_ci_state
    dsimp only
    simp only [Store.alloc_snd]
    cases active with
    | false =>
      simpa using Store.read_alloc_lt st _ gsPtr hlt
    | true =>
      simp only [if_pos]
      exact (hinv _ _ _ _ _).trans (Store.read_alloc_lt st _ gsPtr hlt)
  · unfold get_spam_fn_ci_state
    dsimp only
    simp only [Store.alloc_snd]
    cases SPAMflag with
    | false => simp
    | true =>
      simp only [if_pos]
      refine ((houter _ (fun acc kv => ?_) _ _).trans
        ((houter _ (fun acc kv => ?_) _ _).trans
          (Store.read_alloc_lt st _ gsPtr hlt)))
      · dsimp only
        rw [Store.read_write_ne _ _ _ _ hne]
        exact hinv _ _ _ _ _
      · dsimp only
        rw [Store.read_write_ne _ _ _ _ hne]
        exact hinv _ _ _ _ _

/-- Witness for C7 at a concrete store and trivial collaborators. -/
theorem c7_propagation_preserves_stored_gateset_witness :
    ((0 : ℕ) < (Store.mk (fun _ => (0 : ℚ)) 1).next)
    ∧ ((get_gateset_fn_ci_state id (fun _ => []) (fun v _ => v) (fun v => v) 1
        1 (Store.mk (fun _ => (0 : ℚ)) 1) 0).1.read 0
        = (Store.mk (fun _ => (0 : ℚ)) 1).read 0
      ∧ (get_gate_fn_ci_state (fun v _ => v) id (fun v => v) (fun v _ => v)
          (fun _ => []) (fun v _ => v) (fun m => m) 1 "Gx" 0 1 true
          (Store.mk (fun _ => (0 : ℚ)) 1) 0).1.read 0
        = (Store.mk (fun _ => (0 : ℚ)) 1).read 0
      ∧ (get_spam_fn_ci_state id (fun _ => [[0]]) (fun _ => [[0]])
          (fun v _ _ => v) (fun v _ _ => v) (fun v => v) 1 true true
          (fun _ => (0, 1)) (Store.mk (fun _ => (0 : ℚ)) 1) 0).1.read 0
        = (Store.mk (fun _ => (0 : ℚ)) 1).read 0) := by
  have hlt : (0 : ℕ) < (Store.mk (fun _ => (0 : ℚ)) 1).next := by norm_num
  exact ⟨hlt, c7_propagation_preserves_stored_gateset id (fun _ => [])
    (fun v _ => v) (fun v => v) (fun v _ => v) id (fun v => v) (fun v _ => v)
    (fun _ => []) (fun v _ => v) (fun m => m) (fun _ => [[0]])
    (fun _ => [[0]]) (fun v _ _ => v) (fun v _ _ => v) (fun v => v) 1 1 "Gx"
    0 1 true true true (fun _ => (0, 1)) (Store.mk (fun _ => (0 : ℚ)) 1) 0
    hlt⟩

/-- C10: For a region whose `gates` flag is `False` (or a list not
containing the target label), `get_gate_fn_confidence_interval` on a
scalar-real-valued function returns a half-width of exactly `0`, and its
result does not depend on the supplied function at all beyond the base-point
evaluation (the function is never evaluated at a perturbed point: the whole
result is independent of `fnOfGate`). -/
theorem c10_inactive_gate_df_zero {n : ℕ} {V M : Type}
    (cr : ConfidenceRegion n) (get_gate : V → String → V) (copyGate : V → V)
    (gate_matrix : V → M) (gateset_item : V → String → M)
    (gate_to_vector : V → List ℚ) (gate_from_vector : V → List ℚ → V)
    (sqrt : ℚ → ℚ) (fnOfGate : M → ℚ) (gateLabel : String) (eps : ℚ)
    (nGateParams : ℕ) (st : Store V) (gsPtr : ℕ)
    (hact : gateIsActive cr.gates gateLabel = false) (hsqrt0 : sqrt 0 = 0) :
    (cr.get_gate_fn_confidence_interval get_gate copyGate gate_matrix
      gateset_item gate_to_vector gate_from_vector sqrt fnOfGate gateLabel
      eps nGateParams st gsPtr).2 = 0
    ∧ ∀ fnOfGate2 : M → ℚ,
        cr.get_gate_fn_confidence_interval get_gate copyGate gate_matrix
          gateset_item gate_to_vector gate_from_vector sqrt fnOfGate gateLabel
          eps nGateParams st gsPtr
        = cr.get_gate_fn_confidence_interval get_gate copyGate gate_matrix
            gateset_item gate_to_vector gate_from_vector sqrt fnOfGate2
            gateLabel eps nGateParams st gsPtr := by
  constructor
  · unfold ConfidenceRegion.get_gate_fn_confidence_interval
      get_gate_fn_ci_state
    rw [hact]
    simp [scalarDf, dotProduct, hsqrt0]
  · intro fn2
    unfold ConfidenceRegion.get_gate_fn_confidence_interval
      get_gate_fn_ci_state
    rw [hact]
    simp

/-- Witness for C10: a region with `gates = False` and the zero `sqrt`
oracle. -/
theorem c10_inactive_gate_df_zero_witness :
    (gateIsActive (buildRegion 1 wNum wGS wHess 95 (.flag false) true true
        true).gates "Gx" = false)
    ∧ (wNum.sqrt 0 = 0)
    ∧ (((buildRegion 1 wNum wGS wHess 95 (.flag false) true true
          true).get_gate_fn_confidence_interval (fun v _ => v) id
          (fun v => (v : ℚ)) (fun v _ => v) (fun _ => []) (fun v _ => v)
          wNum.sqrt (fun m => m) "Gx" 1 1 (Store.mk (fun _ => (0 : ℚ)) 1)
          0).2 = 0
      ∧ ∀ fnOfGate2 : ℚ → ℚ,
          ((buildRegion 1 wNum wGS wHess 95 (.flag false) true true
            true).get_gate_fn_confidence_interval (fun v _ => v) id
            (fun v => (v : ℚ)) (fun v _ => v) (fun _ => []) (fun v _ => v)
            wNum.sqrt (fun m => m) "Gx" 1 1 (Store.mk (fun _ => (0 : ℚ)) 1) 0)
          = ((buildRegion 1 wNum wGS wHess 95 (.flag false) true true
              true).get_gate_fn_confidence_interval (fun v _ => v) id
              (fun v => (v : ℚ)) (fun v _ => v) (fun _ => []) (fun v _ => v)
              wNum.sqrt fnOfGate2 "Gx" 1 1 (Store.mk (fun _ => (0 : ℚ)) 1)
              0)) := by
  have hact : gateIsActive (buildRegion 1 wNum wGS wHess 95 (.flag false)
      true true true).gates "Gx" = false := rfl
  have hs : wNum.sqrt 0 = 0 := rfl
  exact ⟨hact, hs, c10_inactive_gate_df_zero _ _ _ _ _ _ _ _ _ _ _ _ _ _ hact
    hs⟩
